import Mathlib

/-!
# Admission-review dispatch layer of `admission-controller/main.go`

A shallow embedding of `newDelegateToV1AdmitHandler`, `delegateV1beta1AdmitToV1`
and `serve`, together with the small part of the Kubernetes and `net/http`
libraries they touch, followed by theorems about what `serve` writes.

Conventions of the embedding.

* Go `string` and `[]byte` are both byte sequences; both are `String` here.
* A Go pointer is an `Option`; dereferencing `none` is the panic
  `Panic.nilDereference`.
* A Go function value that the handler receives from outside (a decision
  function) may have effects of its own and may panic: it is a function
  `σ → Except Panic α × σ`, where `σ` is the state of the decision logic.
* `klog` calls only write to the log and are left out.
-/

namespace AdmissionController

/-- A Go run-time panic. -/
inductive Panic where
  /-- The run-time error "invalid memory address or nil pointer dereference". -/
  | nilDereference
  /-- Any other panic, raised inside a callee, with its message. -/
  | raised (msg : String)
  deriving DecidableEq, Repr

/-! ## `k8s.io/apimachinery/pkg/runtime/schema` -/

namespace schema

/-- Go type `schema.GroupVersion`. -/
structure GroupVersion where
  Group : String
  Version : String
  deriving DecidableEq, Repr

/-- Go type `schema.GroupVersionKind`. -/
structure GroupVersionKind where
  Group : String
  Version : String
  Kind : String
  deriving DecidableEq, Repr

/-- Go method `GroupVersion.WithKind`. -/
def GroupVersion.WithKind (gv : GroupVersion) (kind : String) : GroupVersionKind :=
  { Group := gv.Group, Version := gv.Version, Kind := kind }

/-- Go method `GroupVersionKind.Empty`. -/
def GroupVersionKind.Empty (gvk : GroupVersionKind) : Bool :=
  gvk.Group.length == 0 && gvk.Version.length == 0 && gvk.Kind.length == 0

/-- Go method `GroupVersionKind.GroupVersion`. -/
def GroupVersionKind.GroupVersion (gvk : GroupVersionKind) : GroupVersion :=
  { Group := gvk.Group, Version := gvk.Version }

/-- Go method `GroupVersion.String`: `group/version`, or `version` alone for the
core group. -/
def GroupVersion.toString (gv : GroupVersion) : String :=
  if gv.Group.length > 0 then gv.Group ++ "/" ++ gv.Version else gv.Version

/-- Go method `GroupVersionKind.String`, which `%v` uses to format a
`*GroupVersionKind`. -/
def GroupVersionKind.toString (gvk : GroupVersionKind) : String :=
  gvk.Group ++ "/" ++ gvk.Version ++ ", Kind=" ++ gvk.Kind

/-- Go method `GroupVersionKind.ToAPIVersionAndKind`. -/
def GroupVersionKind.ToAPIVersionAndKind (gvk : GroupVersionKind) : String × String :=
  if gvk.Empty then ("", "") else (gvk.GroupVersion.toString, gvk.Kind)

/-- Go function `schema.ParseGroupVersion`. -/
def ParseGroupVersion (gv : String) : Except String GroupVersion :=
  if gv.length == 0 || gv == "/" then .ok { Group := "", Version := "" }
  else
    match gv.data.count (Char.ofNat 47) with
    | 0 => .ok { Group := "", Version := gv }
    | 1 =>
      .ok { Group := String.mk (gv.data.takeWhile (fun c => c != Char.ofNat 47)),
            Version := String.mk ((gv.data.dropWhile (fun c => c != Char.ofNat 47)).drop 1) }
    | _ => .error ("unexpected GroupVersion string: " ++ gv)

/-- Go function `schema.FromAPIVersionAndKind`. -/
def FromAPIVersionAndKind (apiVersion kind : String) : GroupVersionKind :=
  match ParseGroupVersion apiVersion with
  | .ok gv => { Group := gv.Group, Version := gv.Version, Kind := kind }
  | .error _ => { Group := "", Version := "", Kind := kind }

end schema

/-! ## `k8s.io/apimachinery/pkg/apis/meta/v1` -/

namespace metav1

/-- Go type `metav1.TypeMeta`. -/
structure TypeMeta where
  Kind : String := ""
  APIVersion : String := ""
  deriving DecidableEq, Repr

/-- Go method `TypeMeta.SetGroupVersionKind`. -/
def TypeMeta.SetGroupVersionKind (_obj : TypeMeta) (gvk : schema.GroupVersionKind) : TypeMeta :=
  { APIVersion := gvk.ToAPIVersionAndKind.1, Kind := gvk.ToAPIVersionAndKind.2 }

/-- Go method `TypeMeta.GroupVersionKind`. -/
def TypeMeta.GroupVersionKind (obj : TypeMeta) : schema.GroupVersionKind :=
  schema.FromAPIVersionAndKind obj.APIVersion obj.Kind

/-- Go type `metav1.GroupVersionKind`. -/
structure GroupVersionKind where
  Group : String := ""
  Version : String := ""
  Kind : String := ""
  deriving DecidableEq, Repr

/-- Go type `metav1.GroupVersionResource`. -/
structure GroupVersionResource where
  Group : String := ""
  Version : String := ""
  Resource : String := ""
  deriving DecidableEq, Repr

/-- Go type `metav1.Status`, as far as its message, reason and code. -/
structure Status where
  Message : String := ""
  Reason : String := ""
  Code : Int := 0
  deriving DecidableEq, Repr

end metav1

/-- Go type `authenticationv1.UserInfo`. -/
structure UserInfo where
  Username : String := ""
  UID : String := ""
  Groups : List String := []
  Extra : List (String × List String) := []
  deriving DecidableEq, Repr

/-! ## `k8s.io/api/admission/v1beta1` -/

namespace v1beta1

/-- Go constant `v1beta1.GroupName`. -/
def GroupName : String := "admission.k8s.io"

/-- Go variable `v1beta1.SchemeGroupVersion`. -/
def SchemeGroupVersion : schema.GroupVersion := { Group := GroupName, Version := "v1beta1" }

/-- Go type `v1beta1.AdmissionRequest`. -/
structure AdmissionRequest where
  UID : String := ""
  Kind : metav1.GroupVersionKind := {}
  Resource : metav1.GroupVersionResource := {}
  SubResource : String := ""
  RequestKind : Option metav1.GroupVersionKind := none
  RequestResource : Option metav1.GroupVersionResource := none
  RequestSubResource : String := ""
  Name : String := ""
  Namespace : String := ""
  Operation : String := ""
  UserInfo : UserInfo := {}
  Object : String := ""
  OldObject : String := ""
  DryRun : Option Bool := none
  Options : String := ""
  deriving DecidableEq, Repr

/-- Go type `v1beta1.AdmissionResponse`. -/
structure AdmissionResponse where
  UID : String := ""
  Allowed : Bool := false
  Result : Option metav1.Status := none
  Patch : String := ""
  PatchType : Option String := none
  AuditAnnotations : List (String × String) := []
  Warnings : List String := []
  deriving DecidableEq, Repr

/-- Go type `v1beta1.AdmissionReview`. -/
structure AdmissionReview where
  TypeMeta : metav1.TypeMeta := {}
  Request : Option AdmissionRequest := none
  Response : Option AdmissionResponse := none
  deriving DecidableEq, Repr

end v1beta1

/-! ## `k8s.io/api/admission/v1` (dot-imported by `main.go`) -/

/-- Go constant `v1.GroupName`. -/
def GroupName : String := "admission.k8s.io"

/-- Go variable `v1.SchemeGroupVersion`. -/
def SchemeGroupVersion : schema.GroupVersion := { Group := GroupName, Version := "v1" }

/-- Go type `v1.AdmissionRequest`. -/
structure AdmissionRequest where
  UID : String := ""
  Kind : metav1.GroupVersionKind := {}
  Resource : metav1.GroupVersionResource := {}
  SubResource : String := ""
  RequestKind : Option metav1.GroupVersionKind := none
  RequestResource : Option metav1.GroupVersionResource := none
  RequestSubResource : String := ""
  Name : String := ""
  Namespace : String := ""
  Operation : String := ""
  UserInfo : UserInfo := {}
  Object : String := ""
  OldObject : String := ""
  DryRun : Option Bool := none
  Options : String := ""
  deriving DecidableEq, Repr

/-- Go type `v1.AdmissionResponse`. -/
structure AdmissionResponse where
  UID : String := ""
  Allowed : Bool := false
  Result : Option metav1.Status := none
  Patch : String := ""
  PatchType : Option String := none
  AuditAnnotations : List (String × String) := []
  Warnings : List String := []
  deriving DecidableEq, Repr

/-- Go type `v1.AdmissionReview`. -/
structure AdmissionReview where
  TypeMeta : metav1.TypeMeta := {}
  Request : Option AdmissionRequest := none
  Response : Option AdmissionResponse := none
  deriving DecidableEq, Repr

/-! ## `k8s.io/apimachinery/pkg/runtime` -/

namespace runtime

/-- A value of the Go interface `runtime.Object`, by dynamic type: the nil
interface, a non-nil `*v1beta1.AdmissionReview`, a non-nil `*v1.AdmissionReview`,
or a value of any other type (with the type name `%T` prints). -/
inductive Object where
  | nil
  | v1beta1AdmissionReview (review : v1beta1.AdmissionReview)
  | v1AdmissionReview (review : AdmissionReview)
  | other (goType : String)
  deriving DecidableEq, Repr

end runtime

/-! ## `net/http` -/

namespace http

/-- Go constant `http.StatusBadRequest`. -/
def StatusBadRequest : Nat := 400

/-- Go constant `http.StatusInternalServerError`. -/
def StatusInternalServerError : Nat := 500

/-- Go constant `http.StatusOK`. -/
def StatusOK : Nat := 200

/-- Go type `http.Header`, a map from canonical header names to their values. -/
structure Header where
  entries : List (String × List String) := []
  deriving DecidableEq, Repr

/-- Go method `Header.Get`: the first value of the key, or the empty string. -/
def Header.Get (h : Header) (key : String) : String :=
  match h.entries.lookup key with
  | some (v :: _) => v
  | _ => ""

/-- Go method `Header.Del`. -/
def Header.Del (h : Header) (key : String) : Header :=
  { entries := h.entries.filter (fun e => e.1 != key) }

/-- Go method `Header.Set`: the key now has this single value. -/
def Header.Set (h : Header) (key value : String) : Header :=
  { entries := (key, [value]) :: (h.Del key).entries }

/-- The result of `ioutil.ReadAll(r.Body)`: the bytes read, or the error text. -/
abbrev ReadResult := Except String String

/-- Go type `http.Request`, as far as `serve` reads it: the header and the body,
which is nil or a reader (given by what `ioutil.ReadAll` returns on it). -/
structure Request where
  Header : Header := {}
  Body : Option ReadResult := none
  deriving Repr

/-- The state of an `http.ResponseWriter`: the header map, the status code of
the first `WriteHeader` (explicit or implied by a `Write`), and the chunks
written by the `Write` calls, in order. -/
structure ResponseWriter where
  header : Header := {}
  status : Option Nat := none
  body : List String := []
  deriving DecidableEq, Repr

/-- Go method `ResponseWriter.WriteHeader`: only the first call counts. -/
def ResponseWriter.WriteHeader (w : ResponseWriter) (code : Nat) : ResponseWriter :=
  match w.status with
  | some _ => w
  | none => { w with status := some code }

/-- Go method `ResponseWriter.Write`: implies `WriteHeader(http.StatusOK)` when
no header has been written, then appends the bytes. -/
def ResponseWriter.Write (w : ResponseWriter) (b : String) : ResponseWriter :=
  let w1 := w.WriteHeader StatusOK
  { w1 with body := w1.body ++ [b] }

/-- Go function `http.Error`. -/
def Error (w : ResponseWriter) (error : String) (code : Nat) : ResponseWriter :=
  let h := ((w.header.Del "Content-Length").Set "Content-Type" "text/plain; charset=utf-8").Set
    "X-Content-Type-Options" "nosniff"
  let w1 := ({ w with header := h } : ResponseWriter).WriteHeader code
  w1.Write (error ++ "\n")

end http

/-! ## `admission-controller/main.go` -/

/-- The effect of calling a Go function value supplied from outside: it runs
against the state `σ` of the decision logic and either returns or panics. -/
abbrev Call (σ α : Type) := σ → Except Panic α × σ

/-- Go type `admitv1beta1Func`: handles a v1beta1 admission. The result is a
pointer, so it may be nil. -/
abbrev admitv1beta1Func (σ : Type) := v1beta1.AdmissionReview → Call σ (Option v1beta1.AdmissionResponse)

/-- Go type `admitv1Func`: handles a v1 admission. The result is a pointer, so
it may be nil. -/
abbrev admitv1Func (σ : Type) := AdmissionReview → Call σ (Option AdmissionResponse)

/-- Go type `admitHandler`: a handler, for both validators and mutators, that
supports multiple admission review versions. -/
structure admitHandler (σ : Type) where
  v1beta1 : admitv1beta1Func σ
  v1 : admitv1Func σ

/-- The two conversion functions that `main.go` calls and does not define; their
file is not among the sources, so they are parameters. Each takes a pointer that
may be nil and either returns a pointer or panics (a conversion that reads
fields through a nil pointer panics). -/
structure Conversions where
  convertAdmissionRequestToV1 :
    Option v1beta1.AdmissionRequest → Except Panic (Option AdmissionRequest)
  convertAdmissionResponseToV1beta1 :
    Option AdmissionResponse → Except Panic (Option v1beta1.AdmissionResponse)

/-- Go function `delegateV1beta1AdmitToV1`: convert the v1beta1 request to v1,
call `f` on a review holding only that request, convert the response back. A
panic of the request conversion ends the call before `f` runs; a panic of `f` or
of the response conversion ends it after. -/
def delegateV1beta1AdmitToV1 {σ : Type} (conv : Conversions) (f : admitv1Func σ) :
    admitv1beta1Func σ :=
  fun review s =>
    match conv.convertAdmissionRequestToV1 review.Request with
    | .error p => (.error p, s)
    | .ok request =>
      let input : AdmissionReview := { Request := request }
      match f input s with
      | (.error p, s1) => (.error p, s1)
      | (.ok out, s1) =>
        match conv.convertAdmissionResponseToV1beta1 out with
        | .error p => (.error p, s1)
        | .ok response => (.ok response, s1)

/-- Go function `newDelegateToV1AdmitHandler`. -/
def newDelegateToV1AdmitHandler {σ : Type} (conv : Conversions) (f : admitv1Func σ) :
    admitHandler σ :=
  { v1beta1 := delegateV1beta1AdmitToV1 conv f
    v1 := f }

/-- What `deserializer.Decode(body, nil, nil)` returns: `(obj, gvk, err)`. -/
structure DecodeResult where
  obj : runtime.Object
  gvk : Option schema.GroupVersionKind
  err : Option String
  deriving DecidableEq, Repr

/-- The library calls of `serve` whose results depend on code outside `main.go`:
the universal deserializer of the package variable `codecs`, and `json.Marshal`
(`(respBytes, err)`, the error given by its text). -/
structure Codecs where
  Decode : String → DecodeResult
  Marshal : runtime.Object → Except String String

/-- A call `serve` makes out of its own body, in the order made. -/
inductive Event where
  | decode (body : String)
  | admitV1beta1 (review : v1beta1.AdmissionReview)
  | admitV1 (review : AdmissionReview)
  | marshal (obj : runtime.Object)
  deriving DecidableEq, Repr

/-- How a run of `serve` ends: the response writer, the state of the decision
logic, the calls made, and the panic when the run did not return. -/
structure Outcome (σ : Type) where
  w : http.ResponseWriter
  state : σ
  trace : List Event
  panic : Option Panic

/-- The first statement of `serve`: the body is read when there is one and the
read succeeds, and stays nil (empty) otherwise. -/
def readBody (r : http.Request) : String :=
  match r.Body with
  | none => ""
  | some (.error _) => ""
  | some (.ok data) => data

/-- Go function `serve`: handles the http portion of a request prior to handing
it to a decision function. The third parameter of the source function, of type
`admitHandler`, is named `handler` here. A `return` inside the switch is the
`.error` of the local result `sw`; falling out of the switch with `responseObj`
set is its `.ok`. -/
def serve {σ : Type} (codecs : Codecs) (w : http.ResponseWriter) (r : http.Request)
    (handler : admitHandler σ) (s : σ) : Outcome σ :=
  let body := readBody r
  -- verify the content type is accurate
  let contentType := r.Header.Get "Content-Type"
  if contentType ≠ "application/json" then
    { w := w, state := s, trace := [], panic := none }
  else
    let d := codecs.Decode body
    let t0 := [Event.decode body]
    match d.err with
    | some err =>
      let msg := "Request could not be decoded: " ++ err
      { w := http.Error w msg http.StatusBadRequest, state := s, trace := t0, panic := none }
    | none =>
      match d.gvk with
      | none => { w := w, state := s, trace := t0, panic := some .nilDereference }
      | some gvk =>
        let sw : Except (Outcome σ) (runtime.Object × σ × List Event) :=
          if gvk = v1beta1.SchemeGroupVersion.WithKind "AdmissionReview" then
            match d.obj with
            | .v1beta1AdmissionReview requestedAdmissionReview =>
              let t1 := t0 ++ [Event.admitV1beta1 requestedAdmissionReview]
              match handler.v1beta1 requestedAdmissionReview s with
              | (.error p, s1) => .error { w := w, state := s1, trace := t1, panic := some p }
              | (.ok response, s1) =>
                match response, requestedAdmissionReview.Request with
                | some resp, some req =>
                  let responseAdmissionReview : v1beta1.AdmissionReview :=
                    { TypeMeta := ({} : metav1.TypeMeta).SetGroupVersionKind gvk
                      Response := some { resp with UID := req.UID } }
                  .ok (.v1beta1AdmissionReview responseAdmissionReview, s1, t1)
                | _, _ => .error { w := w, state := s1, trace := t1, panic := some .nilDereference }
            | _ => .error { w := w, state := s, trace := t0, panic := none }
          else if gvk = SchemeGroupVersion.WithKind "AdmissionReview" then
            match d.obj with
            | .v1AdmissionReview requestedAdmissionReview =>
              let t1 := t0 ++ [Event.admitV1 requestedAdmissionReview]
              match handler.v1 requestedAdmissionReview s with
              | (.error p, s1) => .error { w := w, state := s1, trace := t1, panic := some p }
              | (.ok response, s1) =>
                match response, requestedAdmissionReview.Request with
                | some resp, some req =>
                  let responseAdmissionReview : AdmissionReview :=
                    { TypeMeta := ({} : metav1.TypeMeta).SetGroupVersionKind gvk
                      Response := some { resp with UID := req.UID } }
                  .ok (.v1AdmissionReview responseAdmissionReview, s1, t1)
                | _, _ => .error { w := w, state := s1, trace := t1, panic := some .nilDereference }
            | _ => .error { w := w, state := s, trace := t0, panic := none }
          else
            let msg := "Unsupported group version kind: " ++ gvk.toString
            .error { w := http.Error w msg http.StatusBadRequest, state := s, trace := t0,
                     panic := none }
        match sw with
        | .error o => o
        | .ok (responseObj, s1, t1) =>
          let t2 := t1 ++ [Event.marshal responseObj]
          match codecs.Marshal responseObj with
          | .error err =>
            { w := http.Error w err http.StatusInternalServerError, state := s1, trace := t2,
              panic := none }
          | .ok respBytes =>
            { w := ({ w with header := w.header.Set "Content-Type" "application/json" } :
                http.ResponseWriter).Write respBytes,
              state := s1, trace := t2, panic := none }

/-! ## Vocabulary of the statements -/

/-- The group/version/kind `serve` compares first: `admission.k8s.io/v1beta1, Kind=AdmissionReview`. -/
def v1beta1Signature : schema.GroupVersionKind :=
  v1beta1.SchemeGroupVersion.WithKind "AdmissionReview"

/-- The group/version/kind `serve` compares second: `admission.k8s.io/v1, Kind=AdmissionReview`. -/
def v1Signature : schema.GroupVersionKind :=
  SchemeGroupVersion.WithKind "AdmissionReview"

/-- The body of `r` decodes, without error, to the v1beta1 review `review` under the
v1beta1 signature. -/
def DecodesV1beta1 (codecs : Codecs) (r : http.Request) (review : v1beta1.AdmissionReview) : Prop :=
  (codecs.Decode (readBody r)).err = none ∧
  (codecs.Decode (readBody r)).gvk = some v1beta1Signature ∧
  (codecs.Decode (readBody r)).obj = .v1beta1AdmissionReview review

/-- The body of `r` decodes, without error, to the v1 review `review` under the v1
signature. -/
def DecodesV1 (codecs : Codecs) (r : http.Request) (review : AdmissionReview) : Prop :=
  (codecs.Decode (readBody r)).err = none ∧
  (codecs.Decode (readBody r)).gvk = some v1Signature ∧
  (codecs.Decode (readBody r)).obj = .v1AdmissionReview review

/-- The invocations of a decision function among the calls made. -/
def admitCalls (t : List Event) : List Event :=
  t.filter (fun e => match e with
    | .admitV1beta1 _ => true
    | .admitV1 _ => true
    | _ => false)

/-- The runs of the deserializer among the calls made. -/
def decodeCalls (t : List Event) : List Event :=
  t.filter (fun e => match e with
    | .decode _ => true
    | _ => false)

/-- What the `net/http` server sends for a handler run: the status the handler
wrote, `200 OK` when the handler returned without writing any, and nothing when
the handler panicked (the server recovers the panic and drops the connection). -/
def Outcome.statusSent {σ : Type} (o : Outcome σ) : Option Nat :=
  match o.panic with
  | some _ => none
  | none => some (o.w.status.getD http.StatusOK)

/-- A decision function that also counts its invocations. -/
def countCalls {σ : Type} (f : admitv1Func σ) : admitv1Func (σ × Nat) :=
  fun review sn => ((f review sn.1).1, ((f review sn.1).2, sn.2 + 1))

/-- The v1beta1 path as the specification words it: the v1beta1 response
converted from what `f` returns on the v1 review whose only populated field is
the converted request, a panic of any of the three calls being the result. -/
def specV1beta1Path {σ : Type} (conv : Conversions) (f : admitv1Func σ)
    (review : v1beta1.AdmissionReview) : Call σ (Option v1beta1.AdmissionResponse) :=
  fun s =>
    match conv.convertAdmissionRequestToV1 review.Request with
    | .error p => (.error p, s)
    | .ok request =>
      let out := f { TypeMeta := { Kind := "", APIVersion := "" }
                     Request := request
                     Response := none } s
      (out.1.bind conv.convertAdmissionResponseToV1beta1, out.2)

/-- The last statements of `serve`, from `json.Marshal` on: what the run that
reached them with `responseObj`, state `s1` and calls `t1` ends in. -/
def respond {σ : Type} (codecs : Codecs) (w : http.ResponseWriter) (s1 : σ) (t1 : List Event)
    (responseObj : runtime.Object) : Outcome σ :=
  match codecs.Marshal responseObj with
  | .error err =>
    { w := http.Error w err http.StatusInternalServerError, state := s1,
      trace := t1 ++ [Event.marshal responseObj], panic := none }
  | .ok respBytes =>
    { w := ({ w with header := w.header.Set "Content-Type" "application/json" } :
        http.ResponseWriter).Write respBytes,
      state := s1, trace := t1 ++ [Event.marshal responseObj], panic := none }

/-- The v1 envelope `serve` builds around a response: type meta set from the v1
signature, no request, the response with its UID overwritten. -/
def envelopeV1 (resp : AdmissionResponse) (uid : String) : AdmissionReview :=
  { TypeMeta := ({} : metav1.TypeMeta).SetGroupVersionKind v1Signature
    Request := none
    Response := some { resp with UID := uid } }

/-- The v1beta1 envelope `serve` builds around a response. -/
def envelopeV1beta1 (resp : v1beta1.AdmissionResponse) (uid : String) : v1beta1.AdmissionReview :=
  { TypeMeta := ({} : metav1.TypeMeta).SetGroupVersionKind v1beta1Signature
    Request := none
    Response := some { resp with UID := uid } }

/-! ## Example inputs -/

/-- A v1 request with UID `abc-123`. -/
def exampleRequest : AdmissionRequest :=
  { UID := "abc-123", Operation := "CREATE", Namespace := "default", Name := "web" }

/-- A v1beta1 request with UID `abc-123`. -/
def exampleRequestV1beta1 : v1beta1.AdmissionRequest :=
  { UID := "abc-123", Operation := "CREATE", Namespace := "default", Name := "web" }

/-- A v1 review carrying `exampleRequest`. -/
def exampleReview : AdmissionReview :=
  { TypeMeta := { Kind := "AdmissionReview", APIVersion := "admission.k8s.io/v1" }
    Request := some exampleRequest }

/-- A v1beta1 review carrying `exampleRequestV1beta1`. -/
def exampleReviewV1beta1 : v1beta1.AdmissionReview :=
  { TypeMeta := { Kind := "AdmissionReview", APIVersion := "admission.k8s.io/v1beta1" }
    Request := some exampleRequestV1beta1 }

/-- A v1 review whose request sub-object is absent. -/
def exampleReviewNoRequest : AdmissionReview :=
  { TypeMeta := { Kind := "AdmissionReview", APIVersion := "admission.k8s.io/v1" } }

/-- A v1beta1 review whose request sub-object is absent. -/
def exampleReviewV1beta1NoRequest : v1beta1.AdmissionReview :=
  { TypeMeta := { Kind := "AdmissionReview", APIVersion := "admission.k8s.io/v1beta1" } }

/-- A deserializer that knows five bodies and rejects every other one, and a
marshaller that renders the version, UID and decision of an envelope. -/
def exampleCodecs : Codecs :=
  { Decode := fun body =>
      if body = "review-v1" then
        { obj := .v1AdmissionReview exampleReview, gvk := some v1Signature, err := none }
      else if body = "review-v1beta1" then
        { obj := .v1beta1AdmissionReview exampleReviewV1beta1, gvk := some v1beta1Signature,
          err := none }
      else if body = "review-v1-no-request" then
        { obj := .v1AdmissionReview exampleReviewNoRequest, gvk := some v1Signature, err := none }
      else if body = "pod" then
        { obj := .other "*v1.Pod", gvk := some { Group := "", Version := "v1", Kind := "Pod" },
          err := none }
      else if body = "mismatch" then
        { obj := .other "*v1.Pod", gvk := some v1Signature, err := none }
      else
        { obj := .nil, gvk := none,
          err := some "json parse error: unexpected end of JSON input" }
    Marshal := fun obj =>
      match obj with
      | .v1AdmissionReview e =>
        .ok (e.TypeMeta.APIVersion ++ " " ++ (e.Response.map (fun x => x.UID)).getD "" ++ " " ++
          (if (e.Response.map (fun x => x.Allowed)).getD false then "allowed" else "denied"))
      | .v1beta1AdmissionReview e =>
        .ok (e.TypeMeta.APIVersion ++ " " ++ (e.Response.map (fun x => x.UID)).getD "" ++ " " ++
          (if (e.Response.map (fun x => x.Allowed)).getD false then "allowed" else "denied"))
      | _ => .error "json: unsupported type" }

/-- A request with the given content type and body. -/
def exampleHttpRequest (contentType body : String) : http.Request :=
  { Header := { entries := [("Content-Type", [contentType])] }, Body := some (.ok body) }

/-- A decision function that allows everything, counts its invocations, and
leaves the UID of its response empty. -/
def allowAll : admitv1Func Nat :=
  fun _ n => (.ok (some { Allowed := true }), n + 1)

/-- A decision function that returns no response (a nil pointer). -/
def noResponse : admitv1Func Nat :=
  fun _ n => (.ok none, n + 1)

/-- Conversions that copy the fields the two versions share, reading them
through the pointer they receive: on a nil pointer they panic. -/
def exampleConversions : Conversions :=
  { convertAdmissionRequestToV1 := fun r =>
      match r with
      | none => .error .nilDereference
      | some x => .ok (some
        { UID := x.UID, Kind := x.Kind, Resource := x.Resource, SubResource := x.SubResource,
          RequestKind := x.RequestKind, RequestResource := x.RequestResource,
          RequestSubResource := x.RequestSubResource, Name := x.Name, Namespace := x.Namespace,
          Operation := x.Operation, UserInfo := x.UserInfo, Object := x.Object,
          OldObject := x.OldObject, DryRun := x.DryRun, Options := x.Options })
    convertAdmissionResponseToV1beta1 := fun r =>
      match r with
      | none => .error .nilDereference
      | some x => .ok (some
        { UID := x.UID, Allowed := x.Allowed, Result := x.Result, Patch := x.Patch,
          PatchType := x.PatchType, AuditAnnotations := x.AuditAnnotations,
          Warnings := x.Warnings }) }

/-! ## Facts about the library part -/

theorem v1Signature_ne_v1beta1Signature :
    SchemeGroupVersion.WithKind "AdmissionReview" ≠
      v1beta1.SchemeGroupVersion.WithKind "AdmissionReview" := by decide

theorem groupVersionKind_v1beta1Signature :
    (({} : metav1.TypeMeta).SetGroupVersionKind v1beta1Signature).GroupVersionKind
      = v1beta1Signature := by decide

theorem groupVersionKind_v1Signature :
    (({} : metav1.TypeMeta).SetGroupVersionKind v1Signature).GroupVersionKind
      = v1Signature := by decide

/-! ## The paths of `serve` -/

theorem serve_wrongContentType {σ : Type} (codecs : Codecs) (w : http.ResponseWriter)
    (r : http.Request) (handler : admitHandler σ) (s : σ)
    (hct : r.Header.Get "Content-Type" ≠ "application/json") :
    serve codecs w r handler s = { w := w, state := s, trace := [], panic := none } := by
  simp [serve, hct]

theorem serve_decodeError {σ : Type} (codecs : Codecs) (w : http.ResponseWriter)
    (r : http.Request) (handler : admitHandler σ) (s : σ) (err : String)
    (hct : r.Header.Get "Content-Type" = "application/json")
    (herr : (codecs.Decode (readBody r)).err = some err) :
    serve codecs w r handler s =
      { w := http.Error w ("Request could not be decoded: " ++ err) http.StatusBadRequest,
        state := s, trace := [.decode (readBody r)], panic := none } := by
  simp [serve, hct, herr]

theorem serve_unsupported {σ : Type} (codecs : Codecs) (w : http.ResponseWriter)
    (r : http.Request) (handler : admitHandler σ) (s : σ) (gvk : schema.GroupVersionKind)
    (hct : r.Header.Get "Content-Type" = "application/json")
    (herr : (codecs.Decode (readBody r)).err = none)
    (hgvk : (codecs.Decode (readBody r)).gvk = some gvk)
    (h1 : gvk ≠ v1beta1Signature) (h2 : gvk ≠ v1Signature) :
    serve codecs w r handler s =
      { w := http.Error w ("Unsupported group version kind: " ++ gvk.toString)
          http.StatusBadRequest,
        state := s, trace := [.decode (readBody r)], panic := none } := by
  simp only [v1beta1Signature, v1Signature] at h1 h2
  simp [serve, hct, herr, hgvk, h1, h2]

theorem serve_v1 {σ : Type} (codecs : Codecs) (w : http.ResponseWriter)
    (r : http.Request) (handler : admitHandler σ) (s : σ) (review : AdmissionReview)
    (hct : r.Header.Get "Content-Type" = "application/json")
    (hd : DecodesV1 codecs r review) :
    serve codecs w r handler s =
      match handler.v1 review s with
      | (.error p, s1) =>
        { w := w, state := s1, trace := [.decode (readBody r), .admitV1 review], panic := some p }
      | (.ok response, s1) =>
        match response, review.Request with
        | some resp, some req =>
          respond codecs w s1 [.decode (readBody r), .admitV1 review]
            (.v1AdmissionReview (envelopeV1 resp req.UID))
        | _, _ =>
          { w := w, state := s1, trace := [.decode (readBody r), .admitV1 review],
            panic := some .nilDereference } := by
  obtain ⟨herr, hgvk, hobj⟩ := hd
  simp only [v1Signature] at hgvk
  simp only [serve, hct, herr, hgvk, hobj, v1Signature_ne_v1beta1Signature, respond, envelopeV1,
    v1Signature, ne_eq, not_true_eq_false, if_false, if_true, List.singleton_append]
  rcases handler.v1 review s with ⟨res, s1⟩
  rcases res with p | response
  · rfl
  · rcases response with _ | resp
    · rfl
    · rcases review.Request with _ | req <;> rfl

theorem serve_v1beta1 {σ : Type} (codecs : Codecs) (w : http.ResponseWriter)
    (r : http.Request) (handler : admitHandler σ) (s : σ) (review : v1beta1.AdmissionReview)
    (hct : r.Header.Get "Content-Type" = "application/json")
    (hd : DecodesV1beta1 codecs r review) :
    serve codecs w r handler s =
      match handler.v1beta1 review s with
      | (.error p, s1) =>
        { w := w, state := s1, trace := [.decode (readBody r), .admitV1beta1 review],
          panic := some p }
      | (.ok response, s1) =>
        match response, review.Request with
        | some resp, some req =>
          respond codecs w s1 [.decode (readBody r), .admitV1beta1 review]
            (.v1beta1AdmissionReview (envelopeV1beta1 resp req.UID))
        | _, _ =>
          { w := w, state := s1, trace := [.decode (readBody r), .admitV1beta1 review],
            panic := some .nilDereference } := by
  obtain ⟨herr, hgvk, hobj⟩ := hd
  simp only [v1beta1Signature] at hgvk
  simp only [serve, hct, herr, hgvk, hobj, respond, envelopeV1beta1,
    v1beta1Signature, ne_eq, not_true_eq_false, if_false, if_true, List.singleton_append]
  rcases handler.v1beta1 review s with ⟨res, s1⟩
  rcases res with p | response
  · rfl
  · rcases response with _ | resp
    · rfl
    · rcases review.Request with _ | req <;> rfl

theorem serve_nilGvk {σ : Type} (codecs : Codecs) (w : http.ResponseWriter)
    (r : http.Request) (handler : admitHandler σ) (s : σ)
    (hct : r.Header.Get "Content-Type" = "application/json")
    (herr : (codecs.Decode (readBody r)).err = none)
    (hgvk : (codecs.Decode (readBody r)).gvk = none) :
    serve codecs w r handler s =
      { w := w, state := s, trace := [.decode (readBody r)], panic := some .nilDereference } := by
  simp [serve, hct, herr, hgvk]

theorem serve_v1beta1_mismatch {σ : Type} (codecs : Codecs) (w : http.ResponseWriter)
    (r : http.Request) (handler : admitHandler σ) (s : σ)
    (hct : r.Header.Get "Content-Type" = "application/json")
    (herr : (codecs.Decode (readBody r)).err = none)
    (hgvk : (codecs.Decode (readBody r)).gvk = some v1beta1Signature)
    (hobj : ∀ review, (codecs.Decode (readBody r)).obj ≠ .v1beta1AdmissionReview review) :
    serve codecs w r handler s =
      { w := w, state := s, trace := [.decode (readBody r)], panic := none } := by
  simp only [v1beta1Signature] at hgvk
  simp only [serve, hct, herr, hgvk, ne_eq, not_true_eq_false, if_false, if_true]

theorem serve_v1_mismatch {σ : Type} (codecs : Codecs) (w : http.ResponseWriter)
    (r : http.Request) (handler : admitHandler σ) (s : σ)
    (hct : r.Header.Get "Content-Type" = "application/json")
    (herr : (codecs.Decode (readBody r)).err = none)
    (hgvk : (codecs.Decode (readBody r)).gvk = some v1Signature)
    (hobj : ∀ review, (codecs.Decode (readBody r)).obj ≠ .v1AdmissionReview review) :
    serve codecs w r handler s =
      { w := w, state := s, trace := [.decode (readBody r)], panic := none } := by
  simp only [v1Signature] at hgvk
  simp only [serve, hct, herr, hgvk, v1Signature_ne_v1beta1Signature, ne_eq, not_true_eq_false,
    if_false, if_true]

/-! ## What `http.Error` and the last statements of `serve` leave in the writer -/

theorem error_body (w : http.ResponseWriter) (msg : String) (code : Nat) :
    (http.Error w msg code).body = w.body ++ [msg ++ "\n"] := by
  simp only [http.Error, http.ResponseWriter.Write, http.ResponseWriter.WriteHeader]
  cases w.status <;> rfl

theorem error_status (w : http.ResponseWriter) (msg : String) (code : Nat)
    (hw : w.status = none) : (http.Error w msg code).status = some code := by
  simp [http.Error, http.ResponseWriter.Write, http.ResponseWriter.WriteHeader, hw]

theorem respond_trace {σ : Type} (codecs : Codecs) (w : http.ResponseWriter) (s1 : σ)
    (t1 : List Event) (obj : runtime.Object) :
    (respond codecs w s1 t1 obj).trace = t1 ++ [.marshal obj] := by
  unfold respond
  cases codecs.Marshal obj <;> rfl

theorem respond_panic {σ : Type} (codecs : Codecs) (w : http.ResponseWriter) (s1 : σ)
    (t1 : List Event) (obj : runtime.Object) :
    (respond codecs w s1 t1 obj).panic = none := by
  unfold respond
  cases codecs.Marshal obj <;> rfl

theorem respond_state {σ : Type} (codecs : Codecs) (w : http.ResponseWriter) (s1 : σ)
    (t1 : List Event) (obj : runtime.Object) :
    (respond codecs w s1 t1 obj).state = s1 := by
  unfold respond
  cases codecs.Marshal obj <;> rfl

theorem respond_body {σ : Type} (codecs : Codecs) (w : http.ResponseWriter) (s1 : σ)
    (t1 : List Event) (obj : runtime.Object) (respBytes : String)
    (hm : codecs.Marshal obj = .ok respBytes) :
    (respond codecs w s1 t1 obj).w.body = w.body ++ [respBytes] := by
  simp only [respond, hm, http.ResponseWriter.Write, http.ResponseWriter.WriteHeader]
  cases w.status <;> rfl

theorem respond_status {σ : Type} (codecs : Codecs) (w : http.ResponseWriter) (s1 : σ)
    (t1 : List Event) (obj : runtime.Object) (respBytes : String)
    (hm : codecs.Marshal obj = .ok respBytes) (hw : w.status = none) :
    (respond codecs w s1 t1 obj).w.status = some http.StatusOK := by
  simp [respond, hm, http.ResponseWriter.Write, http.ResponseWriter.WriteHeader, hw]

theorem respond_body_length {σ : Type} (codecs : Codecs) (w : http.ResponseWriter) (s1 : σ)
    (t1 : List Event) (obj : runtime.Object) :
    (respond codecs w s1 t1 obj).w.body.length = w.body.length + 1 := by
  unfold respond
  cases codecs.Marshal obj
  · simp [error_body]
  · simp only [http.ResponseWriter.Write, http.ResponseWriter.WriteHeader]
    cases w.status <;> simp

/-! ## Theorems about `serve` -/

/-- C1: for a request with content type `application/json` whose body decodes to
a v1 or v1beta1 review with the request sub-object present, and a decision
function that returns a response (with any UID), `serve` marshals exactly one
envelope; its response is the returned one with the UID replaced by the UID of
the request, and the marshalled bytes, when there are any, are what is written. -/
theorem serve_response_uid_eq_request_uid {σ : Type} (codecs : Codecs)
    (w : http.ResponseWriter) (r : http.Request) (handler : admitHandler σ) (s : σ)
    (hct : r.Header.Get "Content-Type" = "application/json") :
    (∀ (review : AdmissionReview) (req : AdmissionRequest) (resp : AdmissionResponse) (s1 : σ),
      DecodesV1 codecs r review → review.Request = some req →
      handler.v1 review s = (.ok (some resp), s1) →
      ∃ envelope : AdmissionReview,
        (serve codecs w r handler s).trace =
          [.decode (readBody r), .admitV1 review, .marshal (.v1AdmissionReview envelope)] ∧
        envelope.Response = some { resp with UID := req.UID } ∧
        envelope.Response.map (fun x => x.UID) = some req.UID ∧
        (serve codecs w r handler s).panic = none ∧
        ∀ respBytes, codecs.Marshal (.v1AdmissionReview envelope) = .ok respBytes →
          (serve codecs w r handler s).w.body = w.body ++ [respBytes]) ∧
    (∀ (review : v1beta1.AdmissionReview) (req : v1beta1.AdmissionRequest)
        (resp : v1beta1.AdmissionResponse) (s1 : σ),
      DecodesV1beta1 codecs r review → review.Request = some req →
      handler.v1beta1 review s = (.ok (some resp), s1) →
      ∃ envelope : v1beta1.AdmissionReview,
        (serve codecs w r handler s).trace =
          [.decode (readBody r), .admitV1beta1 review,
            .marshal (.v1beta1AdmissionReview envelope)] ∧
        envelope.Response = some { resp with UID := req.UID } ∧
        envelope.Response.map (fun x => x.UID) = some req.UID ∧
        (serve codecs w r handler s).panic = none ∧
        ∀ respBytes, codecs.Marshal (.v1beta1AdmissionReview envelope) = .ok respBytes →
          (serve codecs w r handler s).w.body = w.body ++ [respBytes]) := by
  constructor
  · rintro review req resp s1 hd hreq hcall
    have h := serve_v1 codecs w r handler s review hct hd
    simp only [hcall, hreq] at h
    refine ⟨envelopeV1 resp req.UID, ?_, rfl, rfl, ?_, ?_⟩
    · rw [h, respond_trace]; rfl
    · rw [h, respond_panic]
    · intro respBytes hm
      rw [h]
      exact respond_body codecs w s1 _ _ respBytes hm
  · rintro review req resp s1 hd hreq hcall
    have h := serve_v1beta1 codecs w r handler s review hct hd
    simp only [hcall, hreq] at h
    refine ⟨envelopeV1beta1 resp req.UID, ?_, rfl, rfl, ?_, ?_⟩
    · rw [h, respond_trace]; rfl
    · rw [h, respond_panic]
    · intro respBytes hm
      rw [h]
      exact respond_body codecs w s1 _ _ respBytes hm

/-- Witness of C1: a v1 and a v1beta1 review with UID `abc-123`, answered by a
decision function that leaves the UID of its response empty. -/
theorem serve_response_uid_eq_request_uid_witness :
    (∃ envelope : AdmissionReview,
      (serve exampleCodecs {} (exampleHttpRequest "application/json" "review-v1")
          (newDelegateToV1AdmitHandler exampleConversions allowAll) 0).trace =
        [.decode "review-v1", .admitV1 exampleReview, .marshal (.v1AdmissionReview envelope)] ∧
      envelope.Response.map (fun x => x.UID) = some "abc-123") ∧
    (∃ envelope : v1beta1.AdmissionReview,
      (serve exampleCodecs {} (exampleHttpRequest "application/json" "review-v1beta1")
          (newDelegateToV1AdmitHandler exampleConversions allowAll) 0).trace =
        [.decode "review-v1beta1", .admitV1beta1 exampleReviewV1beta1,
          .marshal (.v1beta1AdmissionReview envelope)] ∧
      envelope.Response.map (fun x => x.UID) = some "abc-123") := by
  constructor
  · obtain ⟨envelope, ht, _, hu, _, _⟩ :=
      (serve_response_uid_eq_request_uid exampleCodecs {}
        (exampleHttpRequest "application/json" "review-v1")
        (newDelegateToV1AdmitHandler exampleConversions allowAll) 0 rfl).1
        exampleReview exampleRequest { Allowed := true } 1 ⟨rfl, rfl, rfl⟩ rfl rfl
    exact ⟨envelope, ht, hu⟩
  · obtain ⟨envelope, ht, _, hu, _, _⟩ :=
      (serve_response_uid_eq_request_uid exampleCodecs {}
        (exampleHttpRequest "application/json" "review-v1beta1")
        (newDelegateToV1AdmitHandler exampleConversions allowAll) 0 rfl).2
        exampleReviewV1beta1 exampleRequestV1beta1 { Allowed := true } 1 ⟨rfl, rfl, rfl⟩ rfl rfl
    exact ⟨envelope, ht, hu⟩

/-- C2: whenever `serve` answers with a decision (it marshals an envelope), the
envelope has the type of the version identified for the request body, and its
group/version/kind is the one identified for the request body: a v1beta1
envelope for the v1beta1 signature, a v1 envelope for the v1 signature. What is
written is the marshalled envelope. -/
theorem serve_envelope_version_eq_request_version {σ : Type} (codecs : Codecs)
    (w : http.ResponseWriter) (r : http.Request) (handler : admitHandler σ) (s : σ)
    (obj : runtime.Object) (h : Event.marshal obj ∈ (serve codecs w r handler s).trace) :
    (∃ gvk, (codecs.Decode (readBody r)).gvk = some gvk ∧
      ((gvk = v1beta1Signature ∧ ∃ envelope : v1beta1.AdmissionReview,
          obj = .v1beta1AdmissionReview envelope ∧ envelope.TypeMeta.GroupVersionKind = gvk) ∨
       (gvk = v1Signature ∧ ∃ envelope : AdmissionReview,
          obj = .v1AdmissionReview envelope ∧ envelope.TypeMeta.GroupVersionKind = gvk))) ∧
    ∀ respBytes, codecs.Marshal obj = .ok respBytes →
      (serve codecs w r handler s).w.body = w.body ++ [respBytes] := by
  by_cases hct : r.Header.Get "Content-Type" = "application/json"
  swap
  · rw [serve_wrongContentType codecs w r handler s hct] at h
    simp at h
  rcases herr : (codecs.Decode (readBody r)).err with _ | err
  swap
  · rw [serve_decodeError codecs w r handler s err hct herr] at h
    simp at h
  rcases hgvk : (codecs.Decode (readBody r)).gvk with _ | gvk
  · rw [serve_nilGvk codecs w r handler s hct herr hgvk] at h
    simp at h
  by_cases h1 : gvk = v1beta1Signature
  · subst h1
    by_cases hobj : ∃ review, (codecs.Decode (readBody r)).obj = .v1beta1AdmissionReview review
    · obtain ⟨review, hobj⟩ := hobj
      have hs := serve_v1beta1 codecs w r handler s review hct ⟨herr, hgvk, hobj⟩
      rw [hs] at h ⊢
      generalize handler.v1beta1 review s = a at h ⊢
      rcases a with ⟨res, s1⟩
      rcases res with p | response
      · simp at h
      · rcases response with _ | resp
        · simp at h
        · generalize review.Request = q at h ⊢
          rcases q with _ | req
          · simp at h
          · simp only [respond_trace] at h
            simp at h
            subst h
            refine ⟨⟨_, rfl, Or.inl ⟨rfl, _, rfl, groupVersionKind_v1beta1Signature⟩⟩, ?_⟩
            intro respBytes hm
            exact respond_body codecs w s1 _ _ respBytes hm
    · push_neg at hobj
      rw [serve_v1beta1_mismatch codecs w r handler s hct herr hgvk hobj] at h
      simp at h
  by_cases h2 : gvk = v1Signature
  · subst h2
    by_cases hobj : ∃ review, (codecs.Decode (readBody r)).obj = .v1AdmissionReview review
    · obtain ⟨review, hobj⟩ := hobj
      have hs := serve_v1 codecs w r handler s review hct ⟨herr, hgvk, hobj⟩
      rw [hs] at h ⊢
      generalize handler.v1 review s = a at h ⊢
      rcases a with ⟨res, s1⟩
      rcases res with p | response
      · simp at h
      · rcases response with _ | resp
        · simp at h
        · generalize review.Request = q at h ⊢
          rcases q with _ | req
          · simp at h
          · simp only [respond_trace] at h
            simp at h
            subst h
            refine ⟨⟨_, rfl, Or.inr ⟨rfl, _, rfl, groupVersionKind_v1Signature⟩⟩, ?_⟩
            intro respBytes hm
            exact respond_body codecs w s1 _ _ respBytes hm
    · push_neg at hobj
      rw [serve_v1_mismatch codecs w r handler s hct herr hgvk hobj] at h
      simp at h
  · rw [serve_unsupported codecs w r handler s gvk hct herr hgvk h1 h2] at h
    simp at h

/-- Witness of C2: the envelope marshalled for the v1beta1 example review is a
v1beta1 envelope under the v1beta1 signature. -/
theorem serve_envelope_version_eq_request_version_witness :
    ∃ envelope : v1beta1.AdmissionReview,
      envelope.TypeMeta.GroupVersionKind =
        { Group := "admission.k8s.io", Version := "v1beta1", Kind := "AdmissionReview" } ∧
      envelope.TypeMeta.APIVersion = "admission.k8s.io/v1beta1" ∧
      (serve exampleCodecs {} (exampleHttpRequest "application/json" "review-v1beta1")
        (newDelegateToV1AdmitHandler exampleConversions allowAll) 0).w.body =
          ["admission.k8s.io/v1beta1 abc-123 allowed"] := by
  have h := serve_envelope_version_eq_request_version exampleCodecs {}
    (exampleHttpRequest "application/json" "review-v1beta1")
    (newDelegateToV1AdmitHandler exampleConversions allowAll) 0
    (.v1beta1AdmissionReview (envelopeV1beta1 { Allowed := true } "abc-123")) (by decide)
  exact ⟨envelopeV1beta1 { Allowed := true } "abc-123", by decide, by decide,
    h.2 "admission.k8s.io/v1beta1 abc-123 allowed" rfl⟩

/-- C3, on the code: a valid v1 review (request present) answered by a decision
function that returns no response makes `serve` assign through the nil response:
the run ends in a nil-dereference panic and nothing is written, so there is no
HTTP 200, no `allowed=false` and no UID. -/
theorem serve_noResponse_panics :
    DecodesV1 exampleCodecs (exampleHttpRequest "application/json" "review-v1") exampleReview ∧
    exampleReview.Request = some exampleRequest ∧
    noResponse exampleReview 0 = (.ok none, 1) ∧
    (serve exampleCodecs {} (exampleHttpRequest "application/json" "review-v1")
      (newDelegateToV1AdmitHandler exampleConversions noResponse) 0).panic
        = some .nilDereference ∧
    (serve exampleCodecs {} (exampleHttpRequest "application/json" "review-v1")
      (newDelegateToV1AdmitHandler exampleConversions noResponse) 0).w.status = none ∧
    (serve exampleCodecs {} (exampleHttpRequest "application/json" "review-v1")
      (newDelegateToV1AdmitHandler exampleConversions noResponse) 0).w.body = [] ∧
    (serve exampleCodecs {} (exampleHttpRequest "application/json" "review-v1")
      (newDelegateToV1AdmitHandler exampleConversions noResponse) 0).statusSent = none := by
  refine ⟨⟨rfl, rfl, rfl⟩, rfl, rfl, ?_, ?_, ?_, ?_⟩ <;> decide

/-- C4, on the code: a request with `Content-Type: text/plain` gets no 400.
`serve` returns without touching the writer and without running the decoder or
the decision function; the server then sends an empty `200 OK`. -/
theorem serve_textPlain_writes_nothing :
    (serve exampleCodecs {} (exampleHttpRequest "text/plain" "review-v1beta1")
      (newDelegateToV1AdmitHandler exampleConversions allowAll) 0).w = {} ∧
    (serve exampleCodecs {} (exampleHttpRequest "text/plain" "review-v1beta1")
      (newDelegateToV1AdmitHandler exampleConversions allowAll) 0).trace = [] ∧
    (serve exampleCodecs {} (exampleHttpRequest "text/plain" "review-v1beta1")
      (newDelegateToV1AdmitHandler exampleConversions allowAll) 0).statusSent = some 200 ∧
    (serve exampleCodecs {} (exampleHttpRequest "text/plain" "review-v1beta1")
      (newDelegateToV1AdmitHandler exampleConversions allowAll) 0).w.status
        ≠ some http.StatusBadRequest := by
  refine ⟨?_, ?_, ?_, ?_⟩ <;> decide

/-- C5: when the content type is `application/json` and the body decodes without
error to a group/version/kind that is neither of the two AdmissionReview
signatures, `serve` answers with status 400 and writes one body, the line
`Unsupported group version kind: ` followed by the group/version/kind. -/
theorem serve_unsupported_gvk_400 {σ : Type} (codecs : Codecs)
    (w : http.ResponseWriter) (r : http.Request) (handler : admitHandler σ) (s : σ)
    (gvk : schema.GroupVersionKind)
    (hct : r.Header.Get "Content-Type" = "application/json") (hw : w.status = none)
    (herr : (codecs.Decode (readBody r)).err = none)
    (hgvk : (codecs.Decode (readBody r)).gvk = some gvk)
    (h1 : gvk ≠ v1beta1.SchemeGroupVersion.WithKind "AdmissionReview")
    (h2 : gvk ≠ SchemeGroupVersion.WithKind "AdmissionReview") :
    (serve codecs w r handler s).w.status = some 400 ∧
    (serve codecs w r handler s).statusSent = some 400 ∧
    (serve codecs w r handler s).w.body =
      w.body ++ ["Unsupported group version kind: " ++
        (gvk.Group ++ "/" ++ gvk.Version ++ ", Kind=" ++ gvk.Kind) ++ "\n"] := by
  rw [serve_unsupported codecs w r handler s gvk hct herr hgvk h1 h2]
  have hst := error_status w ("Unsupported group version kind: " ++ gvk.toString)
    http.StatusBadRequest hw
  refine ⟨hst, ?_, ?_⟩
  · simp only [Outcome.statusSent, hst]
    rfl
  · simp only [error_body]
    rfl

/-- Witness of C5: a body that decodes to a core `v1` Pod. -/
theorem serve_unsupported_gvk_400_witness :
    (serve exampleCodecs {} (exampleHttpRequest "application/json" "pod")
      (newDelegateToV1AdmitHandler exampleConversions allowAll) 0).w.status = some 400 ∧
    (serve exampleCodecs {} (exampleHttpRequest "application/json" "pod")
      (newDelegateToV1AdmitHandler exampleConversions allowAll) 0).statusSent = some 400 ∧
    (serve exampleCodecs {} (exampleHttpRequest "application/json" "pod")
      (newDelegateToV1AdmitHandler exampleConversions allowAll) 0).w.body =
      ["Unsupported group version kind: /v1, Kind=Pod\n"] :=
  serve_unsupported_gvk_400 exampleCodecs {} (exampleHttpRequest "application/json" "pod")
    (newDelegateToV1AdmitHandler exampleConversions allowAll) 0
    { Group := "", Version := "v1", Kind := "Pod" } rfl rfl rfl rfl (by decide) (by decide)

/-- C6: when the content type is `application/json` and the deserializer returns
an error on the body that was read (the empty body when there is none or it
cannot be read), `serve` answers with status 400 and writes one body, the line
`Request could not be decoded: ` followed by the text of the decode error. -/
theorem serve_decode_error_400 {σ : Type} (codecs : Codecs)
    (w : http.ResponseWriter) (r : http.Request) (handler : admitHandler σ) (s : σ)
    (err : String)
    (hct : r.Header.Get "Content-Type" = "application/json") (hw : w.status = none)
    (herr : (codecs.Decode (readBody r)).err = some err) :
    (serve codecs w r handler s).w.status = some 400 ∧
    (serve codecs w r handler s).statusSent = some 400 ∧
    (serve codecs w r handler s).w.body =
      w.body ++ ["Request could not be decoded: " ++ err ++ "\n"] ∧
    (serve codecs w r handler s).trace = [.decode (readBody r)] := by
  rw [serve_decodeError codecs w r handler s err hct herr]
  have hst := error_status w ("Request could not be decoded: " ++ err)
    http.StatusBadRequest hw
  refine ⟨hst, ?_, ?_, rfl⟩
  · simp only [Outcome.statusSent, hst]
    rfl
  · simp only [error_body]

/-- Witness of C6: a request whose body cannot be read. -/
theorem serve_decode_error_400_witness :
    (serve exampleCodecs {}
      { Header := { entries := [("Content-Type", ["application/json"])] },
        Body := some (.error "unexpected EOF") }
      (newDelegateToV1AdmitHandler exampleConversions allowAll) 0).w.status = some 400 ∧
    (serve exampleCodecs {}
      { Header := { entries := [("Content-Type", ["application/json"])] },
        Body := some (.error "unexpected EOF") }
      (newDelegateToV1AdmitHandler exampleConversions allowAll) 0).w.body =
      ["Request could not be decoded: json parse error: unexpected end of JSON input\n"] := by
  obtain ⟨h1, _, h2, _⟩ := serve_decode_error_400 exampleCodecs {}
    { Header := { entries := [("Content-Type", ["application/json"])] },
      Body := some (.error "unexpected EOF") }
    (newDelegateToV1AdmitHandler exampleConversions allowAll) 0
    "json parse error: unexpected end of JSON input" rfl rfl rfl
  exact ⟨h1, h2⟩

/-- C7: the decision function is invoked only on the accepting path. On a wrong
content type `serve` makes no call at all (no decode, no decision) and leaves
the state of the decision logic as it was; on a decode error and on an
unsupported group/version/kind the decision function is not invoked and that
state is unchanged; on a body that decodes to a v1beta1 (v1) review under the
v1beta1 (v1) signature the v1beta1 (v1) decision function is invoked exactly
once, on that review, and the state is the one that single invocation leaves. -/
theorem serve_invokes_admit_only_when_accepted {σ : Type} (codecs : Codecs)
    (w : http.ResponseWriter) (r : http.Request) (handler : admitHandler σ) (s : σ) :
    (r.Header.Get "Content-Type" ≠ "application/json" →
      (serve codecs w r handler s).trace = [] ∧
      decodeCalls (serve codecs w r handler s).trace = [] ∧
      admitCalls (serve codecs w r handler s).trace = [] ∧
      (serve codecs w r handler s).state = s) ∧
    (r.Header.Get "Content-Type" = "application/json" →
      (codecs.Decode (readBody r)).err ≠ none →
      admitCalls (serve codecs w r handler s).trace = [] ∧
      (serve codecs w r handler s).state = s) ∧
    (∀ gvk, r.Header.Get "Content-Type" = "application/json" →
      (codecs.Decode (readBody r)).err = none →
      (codecs.Decode (readBody r)).gvk = some gvk →
      gvk ≠ v1beta1.SchemeGroupVersion.WithKind "AdmissionReview" →
      gvk ≠ SchemeGroupVersion.WithKind "AdmissionReview" →
      admitCalls (serve codecs w r handler s).trace = [] ∧
      (serve codecs w r handler s).state = s) ∧
    (∀ review, r.Header.Get "Content-Type" = "application/json" →
      DecodesV1beta1 codecs r review →
      admitCalls (serve codecs w r handler s).trace = [.admitV1beta1 review] ∧
      (serve codecs w r handler s).state = (handler.v1beta1 review s).2) ∧
    (∀ review, r.Header.Get "Content-Type" = "application/json" →
      DecodesV1 codecs r review →
      admitCalls (serve codecs w r handler s).trace = [.admitV1 review] ∧
      (serve codecs w r handler s).state = (handler.v1 review s).2) := by
  refine ⟨?_, ?_, ?_, ?_, ?_⟩
  · intro hct
    rw [serve_wrongContentType codecs w r handler s hct]
    exact ⟨rfl, rfl, rfl, rfl⟩
  · intro hct herr
    rcases he : (codecs.Decode (readBody r)).err with _ | err
    · exact absurd he herr
    · rw [serve_decodeError codecs w r handler s err hct he]
      exact ⟨rfl, rfl⟩
  · intro gvk hct herr hgvk h1 h2
    rw [serve_unsupported codecs w r handler s gvk hct herr hgvk h1 h2]
    exact ⟨rfl, rfl⟩
  · intro review hct hd
    rw [serve_v1beta1 codecs w r handler s review hct hd]
    rcases handler.v1beta1 review s with ⟨res, s1⟩
    rcases res with p | response
    · exact ⟨rfl, rfl⟩
    · rcases response with _ | resp
      · exact ⟨rfl, rfl⟩
      · rcases review.Request with _ | req
        · exact ⟨rfl, rfl⟩
        · refine ⟨?_, ?_⟩
          · rw [respond_trace]; rfl
          · rw [respond_state]
  · intro review hct hd
    rw [serve_v1 codecs w r handler s review hct hd]
    rcases handler.v1 review s with ⟨res, s1⟩
    rcases res with p | response
    · exact ⟨rfl, rfl⟩
    · rcases response with _ | resp
      · exact ⟨rfl, rfl⟩
      · rcases review.Request with _ | req
        · exact ⟨rfl, rfl⟩
        · refine ⟨?_, ?_⟩
          · rw [respond_trace]; rfl
          · rw [respond_state]

/-- Witness of C7: a `text/plain` request leaves the invocation counter of the
decision function at 0; an accepted v1beta1 request leaves it at 1. -/
theorem serve_invokes_admit_only_when_accepted_witness :
    (serve exampleCodecs {} (exampleHttpRequest "text/plain" "review-v1beta1")
      (newDelegateToV1AdmitHandler exampleConversions allowAll) 0).state = 0 ∧
    (serve exampleCodecs {} (exampleHttpRequest "application/json" "review-v1beta1")
      (newDelegateToV1AdmitHandler exampleConversions allowAll) 0).state = 1 := by
  constructor
  · exact ((serve_invokes_admit_only_when_accepted exampleCodecs {}
      (exampleHttpRequest "text/plain" "review-v1beta1")
      (newDelegateToV1AdmitHandler exampleConversions allowAll) 0).1 (by decide)).2.2.2
  · exact ((serve_invokes_admit_only_when_accepted exampleCodecs {}
      (exampleHttpRequest "application/json" "review-v1beta1")
      (newDelegateToV1AdmitHandler exampleConversions allowAll) 0).2.2.2.1
      exampleReviewV1beta1 rfl ⟨rfl, rfl, rfl⟩).2

/-- C8, on the code: two paths of `serve` return without any write of a response
body, a wrong content type and a decoded object that is not of the type its
group/version/kind announces; a decision function that returns no response ends
the run in a panic, also without a write. -/
theorem serve_paths_without_write :
    (serve exampleCodecs {} (exampleHttpRequest "text/plain" "review-v1")
      (newDelegateToV1AdmitHandler exampleConversions allowAll) 0).w.body.length = 0 ∧
    (serve exampleCodecs {} (exampleHttpRequest "application/json" "mismatch")
      (newDelegateToV1AdmitHandler exampleConversions allowAll) 0).w.body.length = 0 ∧
    (serve exampleCodecs {} (exampleHttpRequest "application/json" "mismatch")
      (newDelegateToV1AdmitHandler exampleConversions allowAll) 0).panic = none ∧
    (serve exampleCodecs {} (exampleHttpRequest "application/json" "review-v1beta1")
      (newDelegateToV1AdmitHandler exampleConversions noResponse) 0).w.body.length = 0 := by
  refine ⟨?_, ?_, ?_, ?_⟩ <;> decide

/-- The handler built by `newDelegateToV1AdmitHandler f` has `f` itself as its v1
path; its v1beta1 path is, on every review, the composition the specification
words; it invokes `f` exactly once when the request conversion returns, and not
at all when the request conversion panics. -/
theorem delegateV1beta1AdmitToV1_eq_spec {σ : Type} (conv : Conversions) (f : admitv1Func σ) :
    (newDelegateToV1AdmitHandler conv f).v1 = f ∧
    (∀ review : v1beta1.AdmissionReview,
      (newDelegateToV1AdmitHandler conv f).v1beta1 review = specV1beta1Path conv f review) ∧
    (∀ (review : v1beta1.AdmissionReview) (s : σ) (n : Nat) (request : Option AdmissionRequest),
      conv.convertAdmissionRequestToV1 review.Request = .ok request →
      ((newDelegateToV1AdmitHandler conv (countCalls f)).v1beta1 review (s, n)).2.2 = n + 1) ∧
    (∀ (review : v1beta1.AdmissionReview) (s : σ) (n : Nat) (p : Panic),
      conv.convertAdmissionRequestToV1 review.Request = .error p →
      (newDelegateToV1AdmitHandler conv (countCalls f)).v1beta1 review (s, n)
        = (.error p, (s, n))) := by
  refine ⟨rfl, ?_, ?_, ?_⟩
  · intro review
    funext s
    simp only [newDelegateToV1AdmitHandler, delegateV1beta1AdmitToV1, specV1beta1Path]
    rcases conv.convertAdmissionRequestToV1 review.Request with p | request
    · rfl
    · simp only []
      rcases f _ s with ⟨res, s1⟩
      rcases res with p | out
      · rfl
      · simp only [Except.bind]
        rcases conv.convertAdmissionResponseToV1beta1 out with p | response <;> rfl
  · intro review s n request hconv
    simp only [newDelegateToV1AdmitHandler, delegateV1beta1AdmitToV1, countCalls, hconv]
    rcases f _ s with ⟨res, s1⟩
    rcases res with p | out
    · rfl
    · simp only []
      rcases conv.convertAdmissionResponseToV1beta1 out with p | response <;> rfl
  · intro review s n p hconv
    simp only [newDelegateToV1AdmitHandler, delegateV1beta1AdmitToV1, hconv]

/-- C9, on the code: on a v1beta1 review whose request sub-object is absent, the
v1beta1 path of `newDelegateToV1AdmitHandler f` passes the nil request to the
request conversion, which panics before `f` is called: the path ends in a
nil-dereference panic and `f` is invoked zero times, not once (the invocation
counters stay at 0), while on a review with a request `f` is invoked once. -/
theorem delegate_absent_request_never_calls :
    exampleReviewV1beta1NoRequest.Request = none ∧
    (newDelegateToV1AdmitHandler exampleConversions allowAll).v1beta1
      exampleReviewV1beta1NoRequest 0 = (.error .nilDereference, 0) ∧
    (newDelegateToV1AdmitHandler exampleConversions (countCalls allowAll)).v1beta1
      exampleReviewV1beta1NoRequest (0, 0) = (.error .nilDereference, (0, 0)) ∧
    ((newDelegateToV1AdmitHandler exampleConversions (countCalls allowAll)).v1beta1
      exampleReviewV1beta1 (0, 0)).2 = (1, 1) := by
  refine ⟨rfl, ?_, ?_, ?_⟩ <;> rfl

/-- C10, on the code: a v1 review whose request sub-object is absent, sent with
content type `application/json` and answered by a decision function that
returns a response, makes `serve` dereference the nil request: the run ends in a
nil-dereference panic after the decision function was invoked, and nothing is
written; the caller gets neither a decision nor an error response. -/
theorem serve_absent_request_panics :
    DecodesV1 exampleCodecs (exampleHttpRequest "application/json" "review-v1-no-request")
      exampleReviewNoRequest ∧
    exampleReviewNoRequest.Request = none ∧
    (serve exampleCodecs {} (exampleHttpRequest "application/json" "review-v1-no-request")
      (newDelegateToV1AdmitHandler exampleConversions allowAll) 0).panic
        = some .nilDereference ∧
    (serve exampleCodecs {} (exampleHttpRequest "application/json" "review-v1-no-request")
      (newDelegateToV1AdmitHandler exampleConversions allowAll) 0).trace
        = [.decode "review-v1-no-request", .admitV1 exampleReviewNoRequest] ∧
    (serve exampleCodecs {} (exampleHttpRequest "application/json" "review-v1-no-request")
      (newDelegateToV1AdmitHandler exampleConversions allowAll) 0).w = {} ∧
    (serve exampleCodecs {} (exampleHttpRequest "application/json" "review-v1-no-request")
      (newDelegateToV1AdmitHandler exampleConversions allowAll) 0).statusSent = none := by
  refine ⟨⟨rfl, rfl, rfl⟩, rfl, ?_, ?_, ?_, ?_⟩ <;> decide


end AdmissionController
